import Mathlib

/-!
Shallow embedding of `src/rag_utils.py`.

Conventions of the embedding:
* Python floats are modelled as rationals (`ℚ`); the arithmetic of the
  program (sums, division by a count, clamping, division by 10) is exact
  on the values the spec talks about.
* A Python dict used as a score record is modelled as a structure with the
  four named fields as `Option ℚ` (`none` covers both "key absent" and
  "value is None", which the code treats identically) together with an
  association list `extra` for any other keys a caller may have stored.
* In-place mutation becomes explicit state passing: `score_question`
  returns the new list, and `print` diagnostics become an `Option String`
  component of the result.
* `llm.invoke` is a function argument; where the code catches exceptions
  the collaborator is modelled as `String → Except String String`.
-/

namespace RagUtils

/-- A score record: a dict with up to four numeric fields, each absent /
`None` (`none`) or a number, plus whatever other keys the caller stored. -/
structure ScoreRecord where
  vanilla_faith : Option ℚ
  vanilla_relev : Option ℚ
  rag_faith : Option ℚ
  rag_relev : Option ℚ
  extra : List (String × ℚ)
deriving Repr, DecidableEq

/-- The fixed-shape metrics dict built by `compute_metrics`. -/
structure Metrics where
  vanilla_faith_avg : ℚ
  vanilla_relev_avg : ℚ
  rag_faith_avg : ℚ
  rag_relev_avg : ℚ
  count : ℕ
deriving Repr, DecidableEq

/-- The qualification test of the loop body of `compute_metrics`:
`all(k in s and s[k] is not None for k in [...])`. -/
def qualifies (s : ScoreRecord) : Bool :=
  s.vanilla_faith.isSome && s.vanilla_relev.isSome &&
  s.rag_faith.isSome && s.rag_relev.isSome

/-- One iteration of the accumulation loop of `compute_metrics`:
running sums of the four fields plus the `valid_entries` counter. -/
def metricsStep (acc : ℚ × ℚ × ℚ × ℚ × ℕ) (s : ScoreRecord) :
    ℚ × ℚ × ℚ × ℚ × ℕ :=
  if qualifies s then
    (acc.1 + s.vanilla_faith.getD 0, acc.2.1 + s.vanilla_relev.getD 0,
     acc.2.2.1 + s.rag_faith.getD 0, acc.2.2.2.1 + s.rag_relev.getD 0,
     acc.2.2.2.2 + 1)
  else acc

/-- `compute_metrics(scores_list)`: accumulate sums over the fully
populated records, then divide each sum by `valid_entries` when it is
positive; otherwise the initial `0.0` values are returned as they are. -/
def compute_metrics (scores_list : List ScoreRecord) : Metrics :=
  let r := scores_list.foldl metricsStep (0, 0, 0, 0, 0)
  if r.2.2.2.2 > 0 then
    { vanilla_faith_avg := r.1 / r.2.2.2.2,
      vanilla_relev_avg := r.2.1 / r.2.2.2.2,
      rag_faith_avg := r.2.2.1 / r.2.2.2.2,
      rag_relev_avg := r.2.2.2.1 / r.2.2.2.2,
      count := r.2.2.2.2 }
  else
    { vanilla_faith_avg := r.1,
      vanilla_relev_avg := r.2.1,
      rag_faith_avg := r.2.2.1,
      rag_relev_avg := r.2.2.2.1,
      count := r.2.2.2.2 }

/-- The four assignments the success branch of `score_question` performs on
the record at the target index; all other fields of the record keep their
values. -/
def setScores (s : ScoreRecord) (vf vr rf rr : ℚ) : ScoreRecord :=
  { s with vanilla_faith := some vf, vanilla_relev := some vr,
           rag_faith := some rf, rag_relev := some rr }

/-- In-place update of the element at a 0-based position, as the four dict
assignments `scores_list[idx][...] = ...` do. -/
def updateAt (vf vr rf rr : ℚ) : ℕ → List ScoreRecord → List ScoreRecord
  | _, [] => []
  | 0, s :: rest => setScores s vf vr rf rr :: rest
  | n + 1, s :: rest => s :: updateAt vf vr rf rr n rest

/-- `score_question(scores_list, index, vf, vr, rf, rr)`: 1-based `index`
is shifted to 0-based `idx`; inside `[0, len)` the four fields of that
record are overwritten, otherwise nothing changes and the error line is
printed.  The result is (state of the list, printed diagnostic). -/
def score_question (scores_list : List ScoreRecord) (index : ℤ)
    (vf vr rf rr : ℚ) : List ScoreRecord × Option String :=
  let idx := index - 1
  if 0 ≤ idx ∧ idx < scores_list.length then
    (updateAt vf vr rf rr idx.toNat scores_list, none)
  else
    (scores_list, some ("Error: Index " ++ toString index ++ " out of range."))

/-- Numeric value of a run of decimal digits, most significant first. -/
def digitsToNat (ds : List Char) : ℕ :=
  ds.foldl (fun a c => 10 * a + (c.toNat - 48)) 0

/-- Value of the match of `\d+(\.\d+)?` anchored at a position that starts
with a digit: the greedy run of digits, then an optional fractional part
taken only when a `.` followed by at least one digit comes next. -/
def numberAt (cs : List Char) : ℚ :=
  let intDigits := cs.takeWhile Char.isDigit
  match cs.dropWhile Char.isDigit with
  | '.' :: rest2 =>
    let fracDigits := rest2.takeWhile Char.isDigit
    if fracDigits.isEmpty then (digitsToNat intDigits : ℚ)
    else (digitsToNat intDigits : ℚ) +
      (digitsToNat fracDigits : ℚ) / (10 : ℚ) ^ fracDigits.length
  | _ => (digitsToNat intDigits : ℚ)

/-- `re.search(r'\d+(\.\d+)?', text)`: value of the leftmost match, or
`none` when the text has no digit. -/
def findFirstNumber : List Char → Option ℚ
  | [] => none
  | c :: rest =>
    if c.isDigit then some (numberAt (c :: rest)) else findFirstNumber rest

/-- `parse_score(response_text)`: first number in the text, clamped to
[0, 10] by `max(0, min(10, val))`, divided by 10; `0.0` when no number is
found.  Total, so the `except: return 0.0` branch has nothing to catch. -/
def parse_score (response_text : String) : ℚ :=
  match findFirstNumber response_text.data with
  | some val => max 0 (min 10 val) / 10
  | none => 0

/-- A retrieved document: a text payload plus retriever-defined metadata
that this code never touches. -/
structure Document where
  page_content : String
  metadata : List (String × String)
deriving Repr, DecidableEq

/-- `"\n\n".join(d.page_content for d in docs)`: document texts in
retrieval order, separated by a double newline. -/
def joinContext : List Document → String
  | [] => ""
  | [d] => d.page_content
  | d :: rest => d.page_content ++ "\n\n" ++ joinContext rest

/-- The context string `ask_rag` builds and hands to the prompt formatter:
the joined texts truncated from the start by `context[:max_context_chars]`. -/
def ragContext (docs : List Document) (max_context_chars : ℕ) : String :=
  (joinContext docs).take max_context_chars

/-- `ask_rag(retriever, question, qa_prompt, llm, max_context_chars)`:
retrieve, join and truncate the context, format the prompt, invoke the
model once, and return (response, retrieved document list). -/
def ask_rag (retriever : String → List Document) (question : String)
    (qa_prompt : String → String → String) (llm : String → String)
    (max_context_chars : ℕ) : String × List Document :=
  let docs := retriever question
  let context := ragContext docs max_context_chars
  let prompt_text := qa_prompt context question
  let resp := llm prompt_text
  (resp, docs)

/-- The relevancy judge prompt of `evaluate_answer_with_llm`, after
`.format(question=..., answer=...)`. -/
def relevancyPrompt (question answer : String) : String :=
  "You are an impartial judge. Evaluate the following answer based on the question provided.\nQuestion: " ++ question ++ "\nAnswer: " ++ answer ++ "\n\nRate the Relevancy of the answer to the question on a scale from 0 to 10.\n0 means the answer is completely irrelevant or does not address the question at all.\n10 means the answer fully and perfectly addresses all parts of the question.\n\nReturn ONLY the number (0-10)."

/-- The faithfulness judge prompt of `evaluate_answer_with_llm`, after
`.format(context=..., answer=...)`. -/
def faithfulnessPrompt (context answer : String) : String :=
  "You are an impartial judge. Evaluate the following answer based on the context provided.\nContext: " ++ context ++ "\nAnswer: " ++ answer ++ "\n\nRate the Faithfulness of the answer to the context on a scale from 0 to 10.\n0 means the answer contains hallucinations or information not supported by the context.\n10 means the answer is fully supported by the context.\n\nReturn ONLY the number (0-10)."

/-- Python truthiness of the optional `context` argument: `None` and the
empty string are falsy. -/
def truthy : Option String → Bool
  | none => false
  | some c => !c.isEmpty

/-- `evaluate_answer_with_llm(llm, question, answer, context)`: relevancy
from one model call, faithfulness from a second call only when `context`
is truthy and `0.0` otherwise; any exception from a model call yields
`(0.0, 0.0)` with the error line printed.  The result is
((faithfulness, relevancy), printed diagnostic). -/
def evaluate_answer_with_llm (llm : String → Except String String)
    (question answer : String) (context : Option String) :
    (ℚ × ℚ) × Option String :=
  let body : Except String (ℚ × ℚ) := do
    let rel_resp ← llm (relevancyPrompt question answer)
    let rel_score := parse_score rel_resp
    if truthy context then
      let faith_resp ← llm (faithfulnessPrompt (context.getD "") answer)
      let faith_score := parse_score faith_resp
      pure (faith_score, rel_score)
    else
      pure ((0 : ℚ), rel_score)
  match body with
  | Except.ok p => (p, none)
  | Except.error e => ((0, 0), some ("Error during LLM evaluation: " ++ e))

/-- The iteration of `compute_metrics` with the traversed records passed
through explicitly: each record is read by `metricsStep` and returned as it
was found. -/
def metricsGo : List ScoreRecord → (ℚ × ℚ × ℚ × ℚ × ℕ) →
    (ℚ × ℚ × ℚ × ℚ × ℕ) × List ScoreRecord
  | [], acc => (acc, [])
  | s :: rest, acc =>
    let out := metricsGo rest (metricsStep acc s)
    (out.1, s :: out.2)

/-- `compute_metrics` with the traversed list threaded through explicitly:
the loop only reads each record, so the function also returns the state of
its input list after the call. -/
def compute_metrics_run (scores_list : List ScoreRecord) :
    Metrics × List ScoreRecord :=
  let r := metricsGo scores_list (0, 0, 0, 0, 0)
  let m := r.1
  (if m.2.2.2.2 > 0 then
    { vanilla_faith_avg := m.1 / m.2.2.2.2,
      vanilla_relev_avg := m.2.1 / m.2.2.2.2,
      rag_faith_avg := m.2.2.1 / m.2.2.2.2,
      rag_relev_avg := m.2.2.2.1 / m.2.2.2.2,
      count := m.2.2.2.2 }
  else
    { vanilla_faith_avg := m.1,
      vanilla_relev_avg := m.2.1,
      rag_faith_avg := m.2.2.1,
      rag_relev_avg := m.2.2.2.1,
      count := m.2.2.2.2 }, r.2)

/-! ## Helper lemmas -/

theorem char_toNat_c0 : ('0' : Char).toNat = 48 := by decide

theorem char_toNat_c1 : ('1' : Char).toNat = 49 := by decide

theorem char_toNat_c3 : ('3' : Char).toNat = 51 := by decide

theorem char_toNat_c5 : ('5' : Char).toNat = 53 := by decide

theorem char_toNat_c7 : ('7' : Char).toNat = 55 := by decide

theorem parse_score_mem_unit (s : String) :
    0 ≤ parse_score s ∧ parse_score s ≤ 1 := by
  unfold parse_score
  cases h : findFirstNumber s.data with
  | none => norm_num
  | some v =>
    refine ⟨by positivity, ?_⟩
    rw [div_le_one (by norm_num)]
    exact max_le (by norm_num) (min_le_left _ _)

theorem parse_score_eq_of_none (s : String)
    (h : findFirstNumber s.data = none) : parse_score s = 0 := by
  unfold parse_score
  rw [h]

theorem parse_score_eq_of_some (s : String) (v : ℚ)
    (h : findFirstNumber s.data = some v) :
    parse_score s = max 0 (min 10 v) / 10 := by
  unfold parse_score
  rw [h]

/-! ## C2: score parsing -/

set_option maxRecDepth 8192 in
/-- C2: `parse_score` finds the first unsigned integer or decimal substring,
clamps its value to [0, 10], divides by 10, and returns 0.0 when the text
has no number; it is total, so it never raises.  The six test vectors of
the spec hold, every result lies in [0.0, 1.0], a digit-free text yields
0.0, and a found value `v` yields `max 0 (min 10 v) / 10`. -/
theorem parse_score_spec :
    parse_score "7" = 7/10 ∧
    parse_score "10 out of 10" = 1 ∧
    parse_score "Score: 0" = 0 ∧
    parse_score "no number here" = 0 ∧
    parse_score "15" = 1 ∧
    parse_score "-3" = 3/10 ∧
    (∀ s : String, 0 ≤ parse_score s ∧ parse_score s ≤ 1) ∧
    (∀ s : String, findFirstNumber s.data = none → parse_score s = 0) ∧
    (∀ (s : String) (v : ℚ), findFirstNumber s.data = some v →
      parse_score s = max 0 (min 10 v) / 10) := by
  refine ⟨?_, ?_, ?_, ?_, ?_, ?_, parse_score_mem_unit,
    parse_score_eq_of_none, parse_score_eq_of_some⟩ <;>
    norm_num +decide [parse_score, findFirstNumber, numberAt, digitsToNat,
      char_toNat_c0, char_toNat_c1, char_toNat_c3, char_toNat_c5, char_toNat_c7]

/-- Witness for C2 at concrete inputs. -/
theorem parse_score_spec_witness :
    findFirstNumber ("see: ok" : String).data = none ∧
    parse_score "see: ok" = 0 :=
  ⟨rfl, parse_score_spec.2.2.2.2.2.2.2.1 "see: ok" rfl⟩

/-! ## C8: context truncation bound -/

/-- C8: the context string `ask_rag` hands to the prompt formatter is the
joined document text truncated from the start to `max_context_chars`
characters, so its length never exceeds `max_context_chars`; the model is
invoked on exactly the prompt built from that truncated context. -/
theorem ask_rag_context_length (retriever : String → List Document)
    (question : String) (qa_prompt : String → String → String)
    (llm : String → String) (max_context_chars : ℕ) :
    (ragContext (retriever question) max_context_chars).length ≤
      max_context_chars ∧
    (ask_rag retriever question qa_prompt llm max_context_chars).1 =
      llm (qa_prompt (ragContext (retriever question) max_context_chars)
        question) := by
  constructor
  · rw [ragContext, String.take_eq]
    show ((joinContext (retriever question)).data.take
      max_context_chars).length ≤ max_context_chars
    rw [List.length_take]
    exact Nat.min_le_left _ _
  · rfl

/-! ## C9: answer and document list -/

/-- C9: `ask_rag` joins the retrieved texts with a double-newline separator
in retrieval order, and returns the model response paired with the full,
untruncated document list exactly as the retriever produced it. -/
theorem ask_rag_result (retriever : String → List Document)
    (question : String) (qa_prompt : String → String → String)
    (llm : String → String) (max_context_chars : ℕ) :
    ask_rag retriever question qa_prompt llm max_context_chars =
      (llm (qa_prompt ((joinContext (retriever question)).take
        max_context_chars) question), retriever question) ∧
    (∀ (d : Document) (ds : List Document),
      joinContext (d :: ds) = d.page_content ++
        (if ds.isEmpty then "" else "\n\n" ++ joinContext ds)) ∧
    joinContext [] = "" := by
  refine ⟨rfl, ?_, rfl⟩
  intro d ds
  cases ds with
  | nil => simp [joinContext]
  | cons e es => simp [joinContext, String.append_assoc]

theorem length_updateAt (vf vr rf rr : ℚ) (n : ℕ) (l : List ScoreRecord) :
    (updateAt vf vr rf rr n l).length = l.length := by
  induction l generalizing n with
  | nil => cases n <;> rfl
  | cons s rest ih =>
    cases n with
    | zero => rfl
    | succ m => simpa [updateAt] using ih m

theorem getElem?_updateAt_self (vf vr rf rr : ℚ) (n : ℕ)
    (l : List ScoreRecord) :
    (updateAt vf vr rf rr n l)[n]? =
      (l[n]?).map fun s => setScores s vf vr rf rr := by
  induction l generalizing n with
  | nil => cases n <;> rfl
  | cons s rest ih =>
    cases n with
    | zero => simp [updateAt]
    | succ m => simpa [updateAt] using ih m

theorem getElem?_updateAt_ne (vf vr rf rr : ℚ) (n j : ℕ)
    (l : List ScoreRecord) (h : j ≠ n) :
    (updateAt vf vr rf rr n l)[j]? = l[j]? := by
  induction l generalizing n j with
  | nil => cases n <;> rfl
  | cons s rest ih =>
    cases n with
    | zero =>
      cases j with
      | zero => exact absurd rfl h
      | succ i => simp [updateAt]
    | succ m =>
      cases j with
      | zero => simp [updateAt]
      | succ i => simpa [updateAt] using ih m i (fun hh => h (by omega))

/-! ## C4: in-range update frame -/

/-- C4: for a 1-based index whose 0-based form is inside [0, length),
`score_question` prints nothing, keeps the list length, replaces exactly
the record at `index - 1` by one whose four named score fields hold the
given values, leaves every other record untouched, and `setScores` keeps
every other field (`extra`) of the updated record. -/
theorem score_question_in_range (l : List ScoreRecord) (index : ℤ)
    (vf vr rf rr : ℚ) (h0 : 0 ≤ index - 1)
    (h1 : index - 1 < (l.length : ℤ)) :
    (score_question l index vf vr rf rr).2 = none ∧
    (score_question l index vf vr rf rr).1.length = l.length ∧
    (score_question l index vf vr rf rr).1[(index - 1).toNat]? =
      (l[(index - 1).toNat]?).map (fun s => setScores s vf vr rf rr) ∧
    (∀ j : ℕ, j ≠ (index - 1).toNat →
      (score_question l index vf vr rf rr).1[j]? = l[j]?) ∧
    (∀ s : ScoreRecord, setScores s vf vr rf rr =
      ⟨some vf, some vr, some rf, some rr, s.extra⟩) := by
  have hif : score_question l index vf vr rf rr =
      (updateAt vf vr rf rr (index - 1).toNat l, none) := by
    simp only [score_question]
    rw [if_pos ⟨h0, h1⟩]
  rw [hif]
  exact ⟨rfl, length_updateAt _ _ _ _ _ _,
    getElem?_updateAt_self _ _ _ _ _ _,
    fun j hj => getElem?_updateAt_ne _ _ _ _ _ _ _ hj,
    fun s => rfl⟩

/-- Witness for C4 on a concrete two-record list at index 2. -/
theorem score_question_in_range_witness :
    (score_question [⟨none, none, none, none, [("id", 5)]⟩,
        ⟨some 1, none, none, none, []⟩] 2 1 0 1 0).2 = none ∧
    (score_question [⟨none, none, none, none, [("id", 5)]⟩,
        ⟨some 1, none, none, none, []⟩] 2 1 0 1 0).1[1]? =
      some ⟨some 1, some 0, some 1, some 0, []⟩ ∧
    (score_question [⟨none, none, none, none, [("id", 5)]⟩,
        ⟨some 1, none, none, none, []⟩] 2 1 0 1 0).1[0]? =
      some ⟨none, none, none, none, [("id", 5)]⟩ := by
  have h := score_question_in_range
    [⟨none, none, none, none, [("id", 5)]⟩, ⟨some 1, none, none, none, []⟩]
    2 1 0 1 0 (by decide) (by decide)
  exact ⟨h.1, (h.2.2.1).trans rfl, (h.2.2.2.1 0 (by decide)).trans rfl⟩

/-! ## C5: out-of-range update -/

/-- C5: for a 1-based index whose 0-based form is outside [0, length),
`score_question` leaves the list exactly as it was and only prints the
out-of-range error line; being total, it raises nothing. -/
theorem score_question_out_of_range (l : List ScoreRecord) (index : ℤ)
    (vf vr rf rr : ℚ)
    (h : index - 1 < 0 ∨ (l.length : ℤ) ≤ index - 1) :
    score_question l index vf vr rf rr =
      (l, some ("Error: Index " ++ toString index ++ " out of range.")) := by
  have hc : ¬(0 ≤ index - 1 ∧ index - 1 < (l.length : ℤ)) := by omega
  simp only [score_question]
  rw [if_neg hc]

/-- Witness for C5 at index 0 on an empty list and at index 2 on a
one-record list. -/
theorem score_question_out_of_range_witness :
    score_question [] 0 1 1 1 1 =
      ([], some "Error: Index 0 out of range.") ∧
    score_question [⟨none, none, none, none, []⟩] 2 1 1 1 1 =
      ([⟨none, none, none, none, []⟩],
        some "Error: Index 2 out of range.") := by
  refine ⟨?_, ?_⟩
  · exact (score_question_out_of_range [] 0 1 1 1 1
      (Or.inl (by decide))).trans (by rfl)
  · exact (score_question_out_of_range [⟨none, none, none, none, []⟩] 2 1 1 1 1
      (Or.inr (by decide))).trans (by rfl)

/-! ## C1, C3: metrics aggregation -/

/-- Sum of one score field over exactly the fully populated records. -/
def fieldSum (f : ScoreRecord → Option ℚ) (l : List ScoreRecord) : ℚ :=
  ((l.filter qualifies).map fun s => (f s).getD 0).sum

/-- Number of fully populated records of a list. -/
def numValid (l : List ScoreRecord) : ℕ := (l.filter qualifies).length

theorem foldl_metricsStep (l : List ScoreRecord) (a b c d : ℚ) (n : ℕ) :
    l.foldl metricsStep (a, b, c, d, n) =
      (a + fieldSum ScoreRecord.vanilla_faith l,
       b + fieldSum ScoreRecord.vanilla_relev l,
       c + fieldSum ScoreRecord.rag_faith l,
       d + fieldSum ScoreRecord.rag_relev l,
       n + numValid l) := by
  induction l generalizing a b c d n with
  | nil => simp [fieldSum, numValid]
  | cons s rest ih =>
    cases hq : qualifies s with
    | true =>
      simp only [List.foldl_cons, metricsStep, hq, if_true, ih, fieldSum,
        numValid, List.filter_cons, List.map_cons, List.sum_cons,
        List.length_cons, Prod.mk.injEq]
      refine ⟨by ring, by ring, by ring, by ring, by omega⟩
    | false =>
      simp only [List.foldl_cons, metricsStep, hq, if_false, ih, fieldSum,
        numValid, List.filter_cons, Prod.mk.injEq]
      simp [hq]

/-- C1: `compute_metrics` returns, for each of the four score fields, the
sum of that field over exactly the fully populated records divided by the
number of such records (in ℚ the quotient is 0 when that number is 0,
matching the untouched initial 0.0), and `count` is that number; records
with a missing or null field contribute to no sum. -/
theorem compute_metrics_mean (l : List ScoreRecord) :
    compute_metrics l =
      { vanilla_faith_avg :=
          fieldSum ScoreRecord.vanilla_faith l / (numValid l : ℚ),
        vanilla_relev_avg :=
          fieldSum ScoreRecord.vanilla_relev l / (numValid l : ℚ),
        rag_faith_avg :=
          fieldSum ScoreRecord.rag_faith l / (numValid l : ℚ),
        rag_relev_avg :=
          fieldSum ScoreRecord.rag_relev l / (numValid l : ℚ),
        count := numValid l } := by
  simp only [compute_metrics, foldl_metricsStep, zero_add]
  by_cases h : numValid l > 0
  · rw [if_pos h]
  · have h0 : numValid l = 0 := by omega
    have hfil : l.filter qualifies = [] :=
      List.length_eq_zero.mp h0
    rw [if_neg h]
    simp [fieldSum, hfil, h0]

/-- C3: when no record is fully populated (in particular on the empty
list) `compute_metrics` returns all four averages 0.0 and count 0; the
division is guarded by `valid_entries > 0`, so the program performs no
division at all in this case. -/
theorem compute_metrics_no_valid (l : List ScoreRecord)
    (h : numValid l = 0) :
    compute_metrics l = ⟨0, 0, 0, 0, 0⟩ := by
  have hfil : l.filter qualifies = [] := List.length_eq_zero.mp h
  simp only [compute_metrics, foldl_metricsStep, zero_add]
  rw [if_neg (by omega)]
  simp [fieldSum, hfil, h]

/-- Witness for C3 on a partially populated one-record list. -/
theorem compute_metrics_no_valid_witness :
    numValid [⟨some 1, some 1, some 1, none, []⟩] = 0 ∧
    compute_metrics [⟨some 1, some 1, some 1, none, []⟩] =
      ⟨0, 0, 0, 0, 0⟩ :=
  ⟨rfl, compute_metrics_no_valid _ rfl⟩

/-! ## C10: aggregation reads but never writes its input -/

theorem metricsGo_spec (l : List ScoreRecord) (acc : ℚ × ℚ × ℚ × ℚ × ℕ) :
    metricsGo l acc = (l.foldl metricsStep acc, l) := by
  induction l generalizing acc with
  | nil => rfl
  | cons s rest ih => simp [metricsGo, ih]

/-- C10: running `compute_metrics` with the score list threaded through as
explicit state returns the input list exactly as it was — the loop only
reads records — together with the same summary `compute_metrics` computes;
the summary is a freshly built `Metrics` value, not part of the list. -/
theorem compute_metrics_run_pure (l : List ScoreRecord) :
    (compute_metrics_run l).2 = l ∧
    (compute_metrics_run l).1 = compute_metrics l := by
  unfold compute_metrics_run compute_metrics
  rw [metricsGo_spec]
  exact ⟨rfl, rfl⟩

/-! ## C6, C7: the LLM judge -/

theorem except_bind_ok {α β ε : Type} (a : α) (f : α → Except ε β) :
    (Except.ok a : Except ε α) >>= f = f a := rfl

theorem except_bind_error {α β ε : Type} (e : ε) (f : α → Except ε β) :
    (Except.error e : Except ε α) >>= f = Except.error e := rfl

/-- C6: when the optional context is absent or empty (falsy),
`evaluate_answer_with_llm` still invokes the model once on the relevancy
prompt and returns faithfulness exactly 0.0 next to the parsed relevancy;
when a truthy context is supplied, faithfulness and relevancy each come
from their own model invocation parsed by `parse_score`, returned as the
pair (faithfulness, relevancy). -/
theorem evaluate_answer_context (llm : String → Except String String)
    (q a : String) (ctx : Option String) (r : String)
    (hrel : llm (relevancyPrompt q a) = Except.ok r) :
    (truthy ctx = false →
      evaluate_answer_with_llm llm q a ctx = ((0, parse_score r), none)) ∧
    (∀ c f, ctx = some c → truthy ctx = true →
      llm (faithfulnessPrompt c a) = Except.ok f →
      evaluate_answer_with_llm llm q a ctx =
        ((parse_score f, parse_score r), none)) := by
  constructor
  · intro hf
    simp [evaluate_answer_with_llm, hrel, except_bind_ok, hf]
  · intro c f hc htr hfa
    subst hc
    simp [evaluate_answer_with_llm, hrel, except_bind_ok, htr, hfa]

/-- Witness for C6 with a judge that always answers "7". -/
theorem evaluate_answer_context_witness :
    evaluate_answer_with_llm (fun _ => Except.ok "7") "q" "a" none =
      ((0, parse_score "7"), none) ∧
    evaluate_answer_with_llm (fun _ => Except.ok "7") "q" "a" (some "c") =
      ((parse_score "7", parse_score "7"), none) :=
  ⟨(evaluate_answer_context (fun _ => Except.ok "7") "q" "a" none "7"
      rfl).1 rfl,
   (evaluate_answer_context (fun _ => Except.ok "7") "q" "a" (some "c") "7"
      rfl).2 "c" "7" rfl (by decide) rfl⟩

/-- C7: any exception from a model invocation inside
`evaluate_answer_with_llm` — from the relevancy call, or from the
faithfulness call made when context is truthy — is caught: the function
returns (0.0, 0.0) with the error line printed instead of propagating the
failure. -/
theorem evaluate_answer_error (llm : String → Except String String)
    (q a : String) (ctx : Option String) (e : String) :
    (llm (relevancyPrompt q a) = Except.error e →
      evaluate_answer_with_llm llm q a ctx =
        ((0, 0), some ("Error during LLM evaluation: " ++ e))) ∧
    (∀ c r, ctx = some c → truthy ctx = true →
      llm (relevancyPrompt q a) = Except.ok r →
      llm (faithfulnessPrompt c a) = Except.error e →
      evaluate_answer_with_llm llm q a ctx =
        ((0, 0), some ("Error during LLM evaluation: " ++ e))) := by
  constructor
  · intro herr
    simp [evaluate_answer_with_llm, herr, except_bind_error]
  · intro c r hc htr hok herr
    subst hc
    simp [evaluate_answer_with_llm, hok, except_bind_ok, htr, herr,
      except_bind_error]

/-- Witness for C7 with a judge that always fails. -/
theorem evaluate_answer_error_witness :
    evaluate_answer_with_llm (fun _ => Except.error "boom") "q" "a"
      (some "c") = ((0, 0), some "Error during LLM evaluation: boom") :=
  ((evaluate_answer_error (fun _ => Except.error "boom") "q" "a"
      (some "c") "boom").1 rfl).trans rfl

end RagUtils

